import Mathlib

/-
  Verification of the hub/connection broadcast engine of
  karthikmuralidharan/go.websocket-chat.

  The Go source is shallowly embedded: pure or lock-bracketed fragments
  become Lean functions; racing goroutines become explicit interleaving
  step relations on small state records.  Channel payloads are lists of
  bytes modelled as lists of naturals.
-/

namespace WsChat

/-- A message payload (a Go byte slice). -/
abbrev Msg := List Nat

/-! ## connection.reader (src/unnamed/part_000, lines 72-98)

One iteration of the reader for-loop.  The iteration either terminates
the loop (the `NextReader` error path), or continues, possibly after
resetting the read deadline or submitting a payload to the hub. -/

/-- The frame event one iteration of the reader loop observes:
a `NextReader` error, a pong frame, a text frame (whose payload read by
`ioutil.ReadAll` may itself fail), or a frame of any other opcode, which
falls through the switch. -/
inductive ReadEvent where
  | readErr
  | pong
  | text (payloadErr : Bool) (m : Msg)
  | otherOp
deriving DecidableEq

/-- The reader-local state: the current absolute read deadline. -/
structure ReaderState where
  readDeadline : Nat
deriving DecidableEq

/-- One iteration of the for-loop of connection.reader
(src/unnamed/part_000, lines 79-97).  Returns `none` when the loop
terminates, and `some (st, out)` when it continues with new state `st`,
where `out` is the payload submitted to the hub broadcast queue, if any.
On a text frame whose payload read fails, the source `break` statement
exits only the enclosing switch, so the loop continues. -/
def readerStep (now readWait : Nat) (st : ReaderState) (ev : ReadEvent) :
    Option (ReaderState × Option Msg) :=
  match ev with
  | .readErr => none
  | .pong => some ({ readDeadline := now + readWait }, none)
  | .text payloadErr m =>
      if payloadErr then some (st, none) else some (st, some m)
  | .otherOp => some (st, none)

/-! ## connection.writer (src/unnamed/part_000, lines 111-139) -/

/-- A frame written down the wire, identified by opcode. -/
inductive Frame where
  | textF (m : Msg)
  | pingF
  | closeF
deriving DecidableEq

/-- The event one iteration of the writer select observes: a message
received from `c.send`, the channel observed closed (`ok = false`), or
the ticker firing. -/
inductive WriterEvent where
  | recv (m : Msg)
  | chanClosed
  | tick
deriving DecidableEq

/-- One iteration of the select loop of connection.writer
(src/unnamed/part_000, lines 120-138).  `writeErr f` tells whether the
transport write of frame `f` fails.  Returns the frame written and
whether the loop continues. -/
def writerStep (writeErr : Frame → Bool) : WriterEvent → Frame × Bool
  | .chanClosed => (.closeF, false)
  | .recv m => (.textF m, !writeErr (.textF m))
  | .tick => (.pingF, !writeErr .pingF)

/-- The firing times of `time.NewTicker(pingPeriod)`
(src/unnamed/part_000, line 117): the k-th tick fires at time
(k+1) * pingPeriod. -/
def tickerFire (pingPeriod k : Nat) : Nat := (k + 1) * pingPeriod

/-! ## hub membership mutation (src/hub.go, lines 98-121)

The connection set is modelled as a finite set of connection
identifiers; the write-lock bracketed map mutations of hub.connect and
hub.disconnect become pure functions returning the new set together
with the recorded member count `numCons`. -/

/-- The lock-bracketed mutation of hub.connect (src/hub.go, lines
99-102): insert the connection, record the resulting count. -/
def connectConns (conns : Finset Nat) (c : Nat) : Finset Nat × Nat :=
  let m := insert c conns
  (m, m.card)

/-- The lock-bracketed set mutation of hub.disconnect (src/hub.go,
lines 118-121): delete the connection, record the resulting count. -/
def disconnectConns (conns : Finset Nat) (c : Nat) : Finset Nat × Nat :=
  let m := conns.erase c
  (m, m.card)

/-! ## hub.bcast (src/hub.go, lines 149-188) -/

/-- The launch loop of hub.bcast (src/hub.go, lines 162-174): while
holding the read lock, for every connection of the snapshot start one
`conn.Send(message, finChan, h)` task.  A launched task is recorded as
the pair of the connection and the message it was handed. -/
def bcastLaunch (snapshot : List Nat) (message : Msg) : List (Nat × Msg) :=
  snapshot.map (fun conn => (conn, message))

/-- The counter `i` after the launch loop of hub.bcast: incremented once
per launched task. -/
def bcastCount (snapshot : List Nat) : Nat := snapshot.length

/-- The drain loop of hub.bcast (src/hub.go, lines 180-185): while
`i > 0`, receive one completion signal from finChan and decrement.
Given the list of completion signals available, returns whether the
loop (and hence the bcast call) completes. -/
def bcastDrain : Nat → List Unit → Bool
  | 0, _ => true
  | _ + 1, [] => false
  | n + 1, _ :: rest => bcastDrain n rest

/-! ## the hub registry (src/hub.go, lines 9-52 and 114-147)

A hub is identified by its room id, a creation token (fresh at each
construction, so distinct hub values are distinguishable), and its
connection set.  The registry state carries the map and the next fresh
token. -/

/-- A hub value: room id, creation token, connection set. -/
structure HubV where
  id : String
  token : Nat
  connections : Finset Nat
deriving DecidableEq

/-- The hub literal constructed by GetHub (src/hub.go, lines 40-46):
a brand-new hub with an empty connection set. -/
def mkHub (id : String) (token : Nat) : HubV :=
  { id := id, token := token, connections := ∅ }

/-- The registry state: the map `hubs.m` and an allocator for creation
tokens. -/
structure RegState where
  m : String → Option HubV
  fresh : Nat

/-- GetHub (src/hub.go, lines 25-52), sequential semantics: return the
existing hub when present; otherwise construct a new hub, insert it and
start its dispatch loop. -/
def GetHub (st : RegState) (id : String) : HubV × RegState :=
  match st.m id with
  | some h => (h, st)
  | none =>
      let h := mkHub id st.fresh
      (h, { m := fun k => if k = id then some h else st.m k,
            fresh := st.fresh + 1 })

/-- The informational payloads posted by hub.disconnect (src/hub.go,
lines 133-134). -/
inductive InfoMsg where
  | disconnected (c : Nat)
  | clientCount (n : Nat) (hubId : String)
deriving DecidableEq

/-- hub.disconnect (src/hub.go, lines 114-147), sequential semantics of
its registry-visible effect: remove the connection from the hub's set;
when the resulting count is positive, post the two informational
payloads; when it is zero, delete the hub's entry from the registry.
Returns the new registry state, the mutated hub and the posted
payloads. -/
def hubDisconnect (st : RegState) (h : HubV) (c : Nat) :
    RegState × HubV × List InfoMsg :=
  let conns := h.connections.erase c
  let numCons := conns.card
  let h2 := { h with connections := conns }
  if 0 < numCons then
    (st, h2, [InfoMsg.disconnected c, InfoMsg.clientCount numCons h.id])
  else
    ({ st with m := fun k => if k = h.id then none else st.m k }, h2, [])

/-! ## connection.Send racing hub.disconnect
(src/unnamed/part_000, lines 34-68 and src/hub.go, lines 123-127)

Send holds `c.mu` as a read lock for the dead check, releases it, then
re-acquires it exclusively for the enqueue select; disconnect holds it
exclusively while it marks the connection dead and closes the send
channel.  Each lock-bracketed section is one atomic step of the
interleaving relation; the interleaving happens between sections,
exactly as the mutex permits.  Sending on a closed Go channel is a
runtime panic, modelled by the pc `panicked`. -/

/-- Program counter of the Send task (src/unnamed/part_000, lines
34-68): about to run the read-locked dead check, about to run the
exclusive-locked enqueue select, finished, or panicked by sending on
the closed channel. -/
inductive SendPC where
  | deadCheck
  | enqueue
  | done
  | panicked
deriving DecidableEq

/-- Program counter of the disconnect task (src/hub.go, lines 123-127):
its lock-bracketed mutation still pending, or finished. -/
inductive DiscPC where
  | pending
  | done
deriving DecidableEq

/-- Joint state of one connection, one in-flight Send and one in-flight
disconnect: the liveness flag, whether the send channel is closed, the
buffered channel occupancy and capacity, and the two program
counters. -/
structure SDState where
  dead : Bool
  sendClosed : Bool
  queueLen : Nat
  cap : Nat
  spc : SendPC
  dpc : DiscPC
deriving DecidableEq

/-- The interleaving of connection.Send with hub.disconnect.  Each
constructor is one mutex-bracketed critical section of the source:
the read-locked dead check (lines 42-48), the exclusive-locked select
(lines 53-67, with its three outcomes: room in the buffer, buffer full
taking the default branch, or channel already closed which panics),
and the exclusive-locked connection mutation of disconnect (lines
123-127). -/
inductive SDStep : SDState → SDState → Prop where
  | checkAlive : ∀ s, s.spc = .deadCheck → s.dead = false →
      SDStep s { s with spc := .enqueue }
  | checkDead : ∀ s, s.spc = .deadCheck → s.dead = true →
      SDStep s { s with spc := .done }
  | enqOk : ∀ s, s.spc = .enqueue → s.sendClosed = false →
      s.queueLen < s.cap →
      SDStep s { s with queueLen := s.queueLen + 1, spc := .done }
  | enqFull : ∀ s, s.spc = .enqueue → s.sendClosed = false →
      ¬ s.queueLen < s.cap →
      SDStep s { s with spc := .done }
  | enqClosed : ∀ s, s.spc = .enqueue → s.sendClosed = true →
      SDStep s { s with spc := .panicked }
  | disc : ∀ s, s.dpc = .pending →
      SDStep s { s with dead := true, sendClosed := true, dpc := .done }

/-- Reachability by interleaved execution of Send and disconnect. -/
def SDReach : SDState → SDState → Prop := Relation.ReflTransGen SDStep

/-! ## the dispatch loop inside bcast racing a full-queue Send
(src/hub.go, lines 78-96 and 149-188; src/unnamed/part_000, lines
34-68)

hub.run calls h.bcast(message) synchronously (src/hub.go, line 93), so
while bcast drains finChan the dispatch loop consumes neither register,
unregister nor broadcast.  A Send launched by that bcast whose target
buffer is full takes the default branch and performs the blocking send
`h.unregister <- c`; its deferred completion signal on finChan fires
only when the function body returns.  Rendezvous channel operations
succeed only when both sides are ready. -/

/-- Program counter of the launched Send task: the read-locked dead
check, the exclusive-locked enqueue select, blocked sending on
h.unregister (the default branch, line 66), the deferred completion
signal on finChan (line 39) still pending, or finished. -/
inductive BSendPC where
  | deadCheck
  | enqueue
  | unregWait
  | finWait
  | done
deriving DecidableEq

/-- Program counter of the dispatch loop: inside bcast draining finChan
with `i` completion signals outstanding (src/hub.go, lines 180-185), or
back at the select of hub.run (lines 80-94), ready to receive an
unregister request. -/
inductive RunPC where
  | drain (i : Nat)
  | select
deriving DecidableEq

/-- Joint state of the connection, the launched Send and the dispatch
loop. -/
structure BState where
  dead : Bool
  sendClosed : Bool
  queueLen : Nat
  cap : Nat
  spc : BSendPC
  rpc : RunPC
deriving DecidableEq

/-- The interleaving of one bcast-launched Send with the dispatch loop.
The channel rendezvous on h.unregister needs the loop at its select;
the rendezvous on finChan needs the loop inside the drain with a
positive count. -/
inductive BStep : BState → BState → Prop where
  | checkAlive : ∀ s, s.spc = .deadCheck → s.dead = false →
      BStep s { s with spc := .enqueue }
  | checkDead : ∀ s, s.spc = .deadCheck → s.dead = true →
      BStep s { s with spc := .finWait }
  | enqOk : ∀ s, s.spc = .enqueue → s.sendClosed = false →
      s.queueLen < s.cap →
      BStep s { s with queueLen := s.queueLen + 1, spc := .finWait }
  | enqFull : ∀ s, s.spc = .enqueue → s.sendClosed = false →
      ¬ s.queueLen < s.cap →
      BStep s { s with spc := .unregWait }
  | unregRecv : ∀ s, s.spc = .unregWait → s.rpc = .select →
      BStep s { s with spc := .finWait }
  | finRecv : ∀ s i, s.spc = .finWait → s.rpc = .drain (i + 1) →
      BStep s { s with spc := .done, rpc := .drain i }
  | drainDone : ∀ s, s.rpc = .drain 0 →
      BStep s { s with rpc := .select }

/-- Reachability by interleaved execution of the launched Send and the
dispatch loop. -/
def BReach : BState → BState → Prop := Relation.ReflTransGen BStep

/-! ## two GetHub calls racing (src/hub.go, lines 25-52)

GetHub reads the map under the read lock, releases it, and when the
entry was absent re-acquires the lock exclusively, where it constructs
and inserts a new hub without checking the map again.  Each
lock-bracketed section is one atomic step; two tasks calling
GetHub("r") concurrently interleave between sections. -/

/-- Program counter of one GetHub task: the read-locked existence check
(lines 26-34), the exclusive-locked construct-and-insert (lines 37-51),
or returned holding the hub with the given creation token. -/
inductive GetPC where
  | rcheck
  | create
  | ret (token : Nat)
deriving DecidableEq

/-- Joint state of the registry entry for one id and two tasks calling
GetHub on that id: the entry (by creation token), the token allocator,
and the two program counters. -/
structure GRState where
  entry : Option Nat
  fresh : Nat
  t1 : GetPC
  t2 : GetPC
deriving DecidableEq

/-- The interleaving of two GetHub calls for the same id.  The
read-locked check returns the entry when present and otherwise falls
through to the exclusive section; the exclusive section constructs a
fresh hub and inserts it unconditionally, as the source does. -/
inductive GStep : GRState → GRState → Prop where
  | check1Hit : ∀ s tok, s.t1 = .rcheck → s.entry = some tok →
      GStep s { s with t1 := .ret tok }
  | check1Miss : ∀ s, s.t1 = .rcheck → s.entry = none →
      GStep s { s with t1 := .create }
  | create1 : ∀ s, s.t1 = .create →
      GStep s { s with entry := some s.fresh, fresh := s.fresh + 1,
                       t1 := .ret s.fresh }
  | check2Hit : ∀ s tok, s.t2 = .rcheck → s.entry = some tok →
      GStep s { s with t2 := .ret tok }
  | check2Miss : ∀ s, s.t2 = .rcheck → s.entry = none →
      GStep s { s with t2 := .create }
  | create2 : ∀ s, s.t2 = .create →
      GStep s { s with entry := some s.fresh, fresh := s.fresh + 1,
                       t2 := .ret s.fresh }

/-- Reachability by interleaved execution of the two GetHub calls. -/
def GReach : GRState → GRState → Prop := Relation.ReflTransGen GStep

/-! ## the connection mutation of hub.disconnect, called twice
(src/hub.go, lines 123-127) -/

/-- The per-connection resources disconnect closes: the liveness flag,
whether the send channel has been closed, whether the websocket was
closed. -/
structure ConnRes where
  dead : Bool
  sendClosed : Bool
  wsClosed : Bool
deriving DecidableEq

/-- The lock-bracketed connection mutation of hub.disconnect
(src/hub.go, lines 123-127): set dead, close the send channel, close
the websocket.  Closing an already-closed Go channel is a runtime
panic, modelled as `none`; the source performs the close
unconditionally. -/
def disconnectConn (c : ConnRes) : Option ConnRes :=
  if c.sendClosed then none
  else some { dead := true, sendClosed := true, wsClosed := true }

/-! ## Theorems -/

/-- The drain loop of bcast completes exactly when at least `n`
completion signals are available. -/
theorem bcastDrain_iff (n : Nat) :
    ∀ sigs : List Unit, bcastDrain n sigs = true ↔ n ≤ sigs.length := by
  induction n with
  | zero => intro sigs; simp [bcastDrain]
  | succ n ih =>
      intro sigs
      cases sigs with
      | nil => simp [bcastDrain]
      | cons s rest =>
          simpa [bcastDrain, Nat.succ_le_succ_iff] using ih rest

/-- Claim C5: bcast launches exactly one Send per member of the
snapshot taken under the shared lock — every member of the snapshot,
the originator included, gets a launched send carrying the message —
and the drain loop completes only once a completion signal has been
received for each of the launched sends. -/
theorem bcast_launches_all_and_waits (snapshot : List Nat) (message : Msg)
    (sigs : List Unit) :
    (bcastLaunch snapshot message).length = bcastCount snapshot ∧
    (∀ c ∈ snapshot, (c, message) ∈ bcastLaunch snapshot message) ∧
    (bcastDrain (bcastCount snapshot) sigs = true ↔
      bcastCount snapshot ≤ sigs.length) := by
  refine ⟨by simp [bcastLaunch, bcastCount], ?_, bcastDrain_iff _ _⟩
  intro c hc
  simp only [bcastLaunch, List.mem_map]
  exact ⟨c, hc, rfl⟩

/-- Witness for C5 at a three-member snapshot with three completion
signals. -/
theorem bcast_launches_all_and_waits_witness :
    (bcastLaunch [1, 2, 3] [7]).length = bcastCount [1, 2, 3] ∧
    ((2, [7]) ∈ bcastLaunch [1, 2, 3] [7]) ∧
    bcastDrain (bcastCount [1, 2, 3]) [(), (), ()] = true :=
  ⟨(bcast_launches_all_and_waits [1, 2, 3] [7] [(), (), ()]).1,
   (bcast_launches_all_and_waits [1, 2, 3] [7] [(), (), ()]).2.1 2 (by decide),
   (bcast_launches_all_and_waits [1, 2, 3] [7] [(), (), ()]).2.2.mpr
     (by decide)⟩

/-- Claim C6 (code bug): an error from NextReader terminates the reader
loop, but an error while reading a text frame's payload does not: the
source `break` exits only the switch, so the iteration returns a
continuation (`some`) and the loop proceeds to the next frame. -/
theorem reader_text_payload_error_continues :
    readerStep 0 60 ⟨0⟩ .readErr = none ∧
    readerStep 0 60 ⟨0⟩ (.text true [1, 2]) = some (⟨0⟩, none) := by
  decide

/-- Counterexample for C7: a text frame does not set the read deadline
to now + readWait; the deadline is left unchanged. -/
theorem reader_text_frame_keeps_deadline :
    (readerStep 100 60 ⟨0⟩ (.text false [1])).map
      (fun p => p.1.readDeadline) ≠ some (100 + 60) := by
  decide

/-- Claim C7 (amended): the reader resets the idle read deadline only
on pong frames; a text frame, whether its payload read succeeds or
fails, and any other opcode leave the reader state unchanged. -/
theorem reader_deadline_reset_only_on_pong (now w : Nat) (st : ReaderState)
    (payloadErr : Bool) (m : Msg) :
    readerStep now w st .pong = some (⟨now + w⟩, none) ∧
    readerStep now w st (.text payloadErr m) =
      some (st, if payloadErr then none else some m) ∧
    readerStep now w st .otherOp = some (st, none) := by
  refine ⟨rfl, ?_, rfl⟩
  cases payloadErr <;> rfl

/-- Claim C9: on a tick with nothing queued the writer writes a ping
frame and continues exactly when the write succeeded; on observing the
channel closed it writes a close frame and terminates; on a message it
writes a text frame and continues exactly when the write succeeded (so
any write error, on text or ping, terminates the loop); and consecutive
ticker firings are pingPeriod apart. -/
theorem writer_ping_close_and_error_stops (writeErr : Frame → Bool)
    (m : Msg) (p k : Nat) :
    writerStep writeErr .tick = (.pingF, !writeErr .pingF) ∧
    writerStep writeErr .chanClosed = (.closeF, false) ∧
    writerStep writeErr (.recv m) = (.textF m, !writeErr (.textF m)) ∧
    tickerFire p (k + 1) - tickerFire p k = p := by
  refine ⟨rfl, rfl, rfl, ?_⟩
  show (k + 1 + 1) * p - (k + 1) * p = p
  rw [Nat.succ_mul, Nat.add_sub_cancel_left]

/-- Claim C10: inserting an already-present connection leaves the set
and the recorded count unchanged, and erasing an absent connection
leaves the set unchanged. -/
theorem membership_idempotent (conns : Finset Nat) (c d : Nat)
    (hc : c ∈ conns) (hd : d ∉ conns) :
    connectConns conns c = (conns, conns.card) ∧
    (disconnectConns conns d).1 = conns := by
  constructor
  · simp [connectConns, Finset.insert_eq_self.mpr hc]
  · simp [disconnectConns, Finset.erase_eq_self.mpr hd]

/-- Witness for C10 on the set containing 1 and 2, with member 1 and
non-member 3. -/
theorem membership_idempotent_witness :
    (1 ∈ ({1, 2} : Finset Nat)) ∧ (3 ∉ ({1, 2} : Finset Nat)) ∧
    connectConns {1, 2} 1 = ({1, 2}, ({1, 2} : Finset Nat).card) ∧
    (disconnectConns {1, 2} 3).1 = {1, 2} := by
  have h := membership_idempotent {1, 2} 1 3 (by decide) (by decide)
  exact ⟨by decide, by decide, h.1, h.2⟩

/-- Claim C1 (code bug): the dead check and the enqueue are separated
by an unlock, so an interleaving exists in which Send passes the dead
check, disconnect then marks the connection dead and closes the queue,
and Send's enqueue step runs with dead already true, sending on the
closed channel — a runtime panic.  The trace: alive check, full
disconnect, enqueue on the closed channel. -/
theorem send_check_act_race_panics :
    SDReach ⟨false, false, 0, 10, .deadCheck, .pending⟩
      ⟨true, true, 0, 10, .panicked, .done⟩ := by
  have h1 : SDStep ⟨false, false, 0, 10, .deadCheck, .pending⟩
      ⟨false, false, 0, 10, .enqueue, .pending⟩ :=
    SDStep.checkAlive ⟨false, false, 0, 10, .deadCheck, .pending⟩ rfl rfl
  have h2 : SDStep ⟨false, false, 0, 10, .enqueue, .pending⟩
      ⟨true, true, 0, 10, .enqueue, .done⟩ :=
    SDStep.disc ⟨false, false, 0, 10, .enqueue, .pending⟩ rfl
  have h3 : SDStep ⟨true, true, 0, 10, .enqueue, .done⟩
      ⟨true, true, 0, 10, .panicked, .done⟩ :=
    SDStep.enqClosed ⟨true, true, 0, 10, .enqueue, .done⟩ rfl rfl
  exact Relation.ReflTransGen.head h1
    (Relation.ReflTransGen.head h2
      (Relation.ReflTransGen.head h3 Relation.ReflTransGen.refl))

/-- Claim C2 (code bug): with the dispatch loop synchronously inside
bcast draining one outstanding completion signal, a launched Send that
finds the outbound queue full (occupancy 1, capacity 1) reaches the
blocking unregister send, after which no task can step: the Send waits
for the dispatch loop's select, the loop waits for the completion
signal only that Send can fire — a deadlock that stalls the dispatch
loop, not just the send task. -/
theorem bcast_full_queue_deadlock :
    BReach ⟨false, false, 1, 1, .deadCheck, .drain 1⟩
      ⟨false, false, 1, 1, .unregWait, .drain 1⟩ ∧
    ∀ t, ¬ BStep ⟨false, false, 1, 1, .unregWait, .drain 1⟩ t := by
  constructor
  · have h1 : BStep ⟨false, false, 1, 1, .deadCheck, .drain 1⟩
        ⟨false, false, 1, 1, .enqueue, .drain 1⟩ :=
      BStep.checkAlive ⟨false, false, 1, 1, .deadCheck, .drain 1⟩ rfl rfl
    have h2 : BStep ⟨false, false, 1, 1, .enqueue, .drain 1⟩
        ⟨false, false, 1, 1, .unregWait, .drain 1⟩ :=
      BStep.enqFull ⟨false, false, 1, 1, .enqueue, .drain 1⟩ rfl rfl
        (by decide)
    exact Relation.ReflTransGen.head h1
      (Relation.ReflTransGen.head h2 Relation.ReflTransGen.refl)
  · intro t h
    cases h <;> simp_all

/-- Claim C3 (code bug): GetHub does not re-check the map after taking
the exclusive lock, so two calls for the same absent id can both pass
the read-locked check and then both construct and insert: the first
call returns the hub with token 0, the second returns the distinct hub
with token 1, and the registry entry holds the second, the first hub
being lost. -/
theorem gethub_race_two_hubs :
    GReach ⟨none, 0, .rcheck, .rcheck⟩ ⟨some 1, 2, .ret 0, .ret 1⟩ ∧
    GetPC.ret 0 ≠ GetPC.ret 1 := by
  constructor
  · have h1 : GStep ⟨none, 0, .rcheck, .rcheck⟩
        ⟨none, 0, .create, .rcheck⟩ :=
      GStep.check1Miss ⟨none, 0, .rcheck, .rcheck⟩ rfl rfl
    have h2 : GStep ⟨none, 0, .create, .rcheck⟩
        ⟨none, 0, .create, .create⟩ :=
      GStep.check2Miss ⟨none, 0, .create, .rcheck⟩ rfl rfl
    have h3 : GStep ⟨none, 0, .create, .create⟩
        ⟨some 0, 1, .ret 0, .create⟩ :=
      GStep.create1 ⟨none, 0, .create, .create⟩ rfl
    have h4 : GStep ⟨some 0, 1, .ret 0, .create⟩
        ⟨some 1, 2, .ret 0, .ret 1⟩ :=
      GStep.create2 ⟨some 0, 1, .ret 0, .create⟩ rfl
    exact Relation.ReflTransGen.head h1
      (Relation.ReflTransGen.head h2
        (Relation.ReflTransGen.head h3
          (Relation.ReflTransGen.head h4 Relation.ReflTransGen.refl)))
  · decide

/-- Claim C4 (code bug): the first disconnect of a live connection sets
the dead flag and closes the send channel and the websocket, but the
mutation closes the send channel unconditionally, so a second
disconnect of the now-dead connection closes the already-closed
channel — a runtime panic, not a no-op. -/
theorem disconnect_twice_panics :
    disconnectConn ⟨false, false, false⟩ = some ⟨true, true, true⟩ ∧
    (disconnectConn ⟨false, false, false⟩).bind disconnectConn = none := by
  decide

/-- Claim C8: when erasing the connection empties the hub, disconnect
deletes the hub's registry entry, and a subsequent GetHub for the same
id returns a newly constructed hub — empty connection set, creation
token distinct from the old hub's (given the allocator invariant that
live tokens are below fresh); when the remaining count is positive the
registry is untouched and exactly the two informational disconnect
payloads are posted. -/
theorem disconnect_empty_removes_and_gethub_fresh (st : RegState)
    (h : HubV) (c : Nat) (hinv : h.token < st.fresh) :
    ((h.connections.erase c).card = 0 →
      (hubDisconnect st h c).1.m h.id = none ∧
      (GetHub (hubDisconnect st h c).1 h.id).1.connections = ∅ ∧
      (GetHub (hubDisconnect st h c).1 h.id).1.token ≠ h.token) ∧
    (0 < (h.connections.erase c).card →
      (hubDisconnect st h c).1.m = st.m ∧
      (hubDisconnect st h c).2.2 =
        [InfoMsg.disconnected c,
         InfoMsg.clientCount (h.connections.erase c).card h.id]) := by
  constructor
  · intro h0
    have hne : ¬ (h.connections.erase c).Nonempty := by
      rw [← Finset.card_pos]
      omega
    refine ⟨?_, ?_, ?_⟩ <;>
      simp [hubDisconnect, hne, GetHub, mkHub]
    omega
  · intro hpos
    have hne := Finset.card_pos.mp hpos
    simp [hubDisconnect, hne]

/-- A registry holding one hub for room r with the single member 5. -/
def regR : RegState :=
  { m := fun k => if k = "r" then some ⟨"r", 0, {5}⟩ else none, fresh := 1 }

/-- The hub registered in regR. -/
def hubR : HubV := ⟨"r", 0, {5}⟩

/-- Witness for C8: disconnecting the last member of the room-r hub
deletes the entry, and GetHub then yields a fresh empty hub. -/
theorem disconnect_empty_removes_witness :
    hubR.token < regR.fresh ∧
    (hubR.connections.erase 5).card = 0 ∧
    (hubDisconnect regR hubR 5).1.m hubR.id = none ∧
    (GetHub (hubDisconnect regR hubR 5).1 hubR.id).1.connections = ∅ ∧
    (GetHub (hubDisconnect regR hubR 5).1 hubR.id).1.token ≠ hubR.token := by
  have h1 := (disconnect_empty_removes_and_gethub_fresh regR hubR 5
    (by decide)).1 (by decide)
  exact ⟨by decide, by decide, h1.1, h1.2.1, h1.2.2⟩

end WsChat
